import Mathlib

/-!
# Verification of the classroom-backend catalog query layer

A shallow embedding of the Express/drizzle route handlers in
`src/routes/departments.ts`, `src/routes/subjects.ts` and
`src/routes/classes.ts` (the latter file also holds the `/users` router).
Tables become lists of records, drizzle query chains become pure list
pipelines (left join = null-extending flat map, `groupBy` over the full
column set = dedup, `orderBy desc` = insertion sort on the key,
`limit`/`offset` = take/drop), and each route callback becomes a total
function from its parsed inputs to a response value.

Machine-level caveats of the JavaScript source that matter to the claims
are modeled explicitly: `Math.max(1, +page)` propagates NaN for
non-numeric input, `parseInt(x) || d` falls back on both NaN and 0, and
ILIKE patterns are interpreted by an executable LIKE matcher
(`ILIKE` is `LIKE` after case folding; folding only touches letters and is
orthogonal to the wildcard/escape semantics studied here, so the matcher
is case-sensitive and all concrete inputs are lowercase).
-/

/-- A `departments` row (columns per the selects in the routes). -/
structure Department where
  id : Int
  code : String
  name : String
  description : String
  createdAt : Int
  updatedAt : Int
deriving DecidableEq, Repr

/-- A `subjects` row. -/
structure Subject where
  id : Int
  departmentId : Int
  name : String
  code : String
  description : String
  createdAt : Int
  updatedAt : Int
deriving DecidableEq, Repr

/-- A `classes` row. The schedule payload's element type is not visible in
`src/routes`; it is modeled opaquely as strings, which no claim inspects. -/
structure ClassRec where
  id : Int
  subjectId : Int
  teacherId : String
  name : String
  inviteCode : String
  schedules : List String
  createdAt : Int
  updatedAt : Int
deriving DecidableEq, Repr

/-- A `user` row, columns as in the `baseSelect` of `GET /subjects/:id/users`. -/
structure User where
  id : String
  name : String
  email : String
  emailVerified : Bool
  image : String
  role : String
  imageCldPubId : String
  createdAt : Int
  updatedAt : Int
deriving DecidableEq, Repr

/-- An `enrollments` row: many-to-many membership of students in classes. -/
structure Enrollment where
  studentId : String
  classId : Int
deriving DecidableEq, Repr

/-- The relational store the routes query. -/
structure DB where
  departments : List Department
  subjects : List Subject
  classes : List ClassRec
  users : List User
  enrollments : List Enrollment
deriving DecidableEq, Repr

/-! ## Pagination normalizers

A raw `page`/`limit` query parameter is absent, an integer-valued numeric
string, or a non-numeric string. -/

inductive RawParam where
  | absent
  | intVal (n : Int)
  | nonNumeric
deriving DecidableEq, Repr

/-- A JavaScript number that is either an integer or NaN (the only values
the pagination arithmetic of this code can produce on our input model). -/
inductive JSNum where
  | nan
  | num (n : Int)
deriving DecidableEq, Repr

/-- `parseInt(String(x), 10) || d` after destructuring with a default:
NaN (non-numeric) and 0 are both falsy and fall back to `d`; the
destructuring defaults (1 resp. 10) coincide with the `||` fallbacks. -/
def parseIntOr (p : RawParam) (d : Int) : Int :=
  match p with
  | .absent => d
  | .intVal n => if n = 0 then d else n
  | .nonNumeric => d

/-- `Math.max(1, parseInt(String(page), 10) || 1)`
(subjects.ts GET /subjects; classes.ts GET /users). -/
def normAPage (page : RawParam) : Int :=
  max 1 (parseIntOr page 1)

/-- `Math.min(Math.max(1, parseInt(String(limit), 10) || 10), 100)`
(subjects.ts GET /subjects; classes.ts GET /users). -/
def normALimit (limit : RawParam) : Int :=
  min (max 1 (parseIntOr limit 10)) 100

/-- `const offset = (currentPage - 1) * limitPerPage` for the parseInt-based
normalizer. -/
def offsetA (page limit : RawParam) : Int :=
  (normAPage page - 1) * normALimit limit

/-- JavaScript unary plus on the destructured parameter: a number for
absent (the default) or numeric input, NaN otherwise. -/
def jsToNum (p : RawParam) (d : Int) : JSNum :=
  match p with
  | .absent => .num d
  | .intVal n => .num n
  | .nonNumeric => .nan

/-- `Math.max(1, x)`: NaN-propagating maximum. -/
def jsMax1 (x : JSNum) : JSNum :=
  match x with
  | .nan => .nan
  | .num n => .num (max 1 n)

/-- `Math.max(1, +page)` (classes.ts GET /classes; departments.ts
GET /departments; also the `:id`-scoped listings). -/
def normBPage (page : RawParam) : JSNum :=
  jsMax1 (jsToNum page 1)

/-- `Math.max(1, +limit)` — note: no `Math.min(..., 100)` cap. -/
def normBLimit (limit : RawParam) : JSNum :=
  jsMax1 (jsToNum limit 10)

/-- `Math.ceil(total / limit)` on naturals. -/
def ceilDiv (a b : Nat) : Nat :=
  (a + b - 1) / b

theorem ceilDiv_total_zero (b : Nat) : ceilDiv 0 b = 0 := by
  cases b with
  | zero => rfl
  | succ n =>
    show (0 + (n + 1) - 1) / (n + 1) = 0
    exact Nat.div_eq_of_lt (by omega)

/-- C2, counterexample. The claim asserts every listing endpoint clamps
`limitPerPage` into [1,100] and falls back to defaults on non-numeric
input. The `Math.max(1, +limit)` normalizer of GET /classes and
GET /departments (classes.ts line 15, departments.ts line 21) lets
`limit=500` through unclamped and turns non-numeric input into NaN
rather than the default 10. -/
theorem C2_counterexample :
    normBLimit (RawParam.intVal 500) = JSNum.num 500 ∧
    ¬ ((500 : Int) ≤ 100) ∧
    normBLimit RawParam.nonNumeric = JSNum.nan := by
  refine ⟨rfl, by decide, rfl⟩

/-- C2, amended: on the endpoints using the parseInt-based normalizer
(GET /subjects, GET /users) the claim holds: for every raw input —
absent, zero, negative or non-numeric — `currentPage ≥ 1`,
`limitPerPage ∈ [1,100]`, and the offset equals
`(currentPage - 1) * limitPerPage` and is non-negative. On GET /classes
and GET /departments the limit is only clamped below at 1: any numeric
value `n ≥ 1` passes through unchanged, with no upper cap. -/
theorem C2_amended :
    (∀ p l : RawParam,
      1 ≤ normAPage p ∧
      1 ≤ normALimit l ∧
      normALimit l ≤ 100 ∧
      offsetA p l = (normAPage p - 1) * normALimit l ∧
      0 ≤ offsetA p l) ∧
    (∀ n : Int, 1 ≤ n → normBLimit (RawParam.intVal n) = JSNum.num n) := by
  constructor
  · intro p l
    refine ⟨?_, ?_, ?_, rfl, ?_⟩
    · cases p <;> simp [normAPage, parseIntOr]
    · cases l <;> simp [normALimit, parseIntOr]
    · cases l <;> simp [normALimit, parseIntOr]
    · have h1 : 1 ≤ normAPage p := by
        cases p <;> simp [normAPage, parseIntOr]
      have h2 : 0 ≤ normALimit l := by
        cases l <;> simp [normALimit, parseIntOr]
      exact mul_nonneg (by omega) h2
  · intro n hn
    simp [normBLimit, jsToNum, jsMax1]
    omega

/-- C2 witness: the amended theorem applied at `limit = 500` — clamped to
100 by the parseInt normalizer, passed through by the `Math.max` one. -/
theorem C2_amended_witness :
    normALimit (RawParam.intVal 500) ≤ 100 ∧
    normBLimit (RawParam.intVal 500) = JSNum.num 500 :=
  ⟨(C2_amended.1 RawParam.absent (RawParam.intVal 500)).2.2.1,
   C2_amended.2 500 (by decide)⟩

/-! ## ILIKE pattern semantics

Executable SQL LIKE matching over character lists: `%` matches any run,
`_` matches exactly one character, a backslash escapes the following
pattern character. Fuel-indexed so the kernel can evaluate concrete
instances; every recursive call shrinks `pattern.length + text.length`,
so the wrapper's fuel never runs out. `ILIKE` is `LIKE` after case
folding; folding only touches letters and is orthogonal to the
wildcard/escape semantics studied here, so the matcher is case-sensitive
and all concrete inputs are lowercase. -/

def likeMatchFuel : Nat → List Char → List Char → Bool
  | 0, _, _ => false
  | _ + 1, [], t => t.isEmpty
  | fuel + 1, pc :: ps, t =>
    if pc = '%' then
      likeMatchFuel fuel ps t ||
        (match t with
         | [] => false
         | _ :: ts => likeMatchFuel fuel (pc :: ps) ts)
    else if pc = '_' then
      match t with
      | [] => false
      | _ :: ts => likeMatchFuel fuel ps ts
    else if pc = '\\' then
      match ps with
      | [] => false
      | pc2 :: ps2 =>
        match t with
        | [] => false
        | tc :: ts => (tc == pc2) && likeMatchFuel fuel ps2 ts
    else
      match t with
      | [] => false
      | tc :: ts => (tc == pc) && likeMatchFuel fuel ps ts

/-- LIKE matching of pattern `p` against text `t`. -/
def likeMatch (p t : List Char) : Bool :=
  likeMatchFuel (p.length + t.length + 1) p t

/-! Fuel-level step equations (each is a definitional unfolding). -/

theorem fuelStep_nil (f : Nat) (t : List Char) :
    likeMatchFuel (f + 1) [] t = t.isEmpty := rfl

theorem fuelStep_percent_nil (f : Nat) (ps : List Char) :
    likeMatchFuel (f + 1) ('%' :: ps) [] = likeMatchFuel f ps [] := by
  show (likeMatchFuel f ps [] || false) = likeMatchFuel f ps []
  exact Bool.or_false _

theorem fuelStep_percent_cons (f : Nat) (ps : List Char) (tc : Char) (ts : List Char) :
    likeMatchFuel (f + 1) ('%' :: ps) (tc :: ts) =
      (likeMatchFuel f ps (tc :: ts) || likeMatchFuel f ('%' :: ps) ts) := rfl

theorem fuelStep_underscore_nil (f : Nat) (ps : List Char) :
    likeMatchFuel (f + 1) ('_' :: ps) [] = false := rfl

theorem fuelStep_underscore_cons (f : Nat) (ps : List Char) (tc : Char) (ts : List Char) :
    likeMatchFuel (f + 1) ('_' :: ps) (tc :: ts) = likeMatchFuel f ps ts := rfl

theorem fuelStep_backslash_nil_p (f : Nat) (t : List Char) :
    likeMatchFuel (f + 1) ['\\'] t = false := by
  cases t <;> rfl

theorem fuelStep_backslash_nil (f : Nat) (pc2 : Char) (ps2 : List Char) :
    likeMatchFuel (f + 1) ('\\' :: pc2 :: ps2) [] = false := rfl

theorem fuelStep_backslash_cons (f : Nat) (pc2 : Char) (ps2 : List Char)
    (tc : Char) (ts : List Char) :
    likeMatchFuel (f + 1) ('\\' :: pc2 :: ps2) (tc :: ts) =
      ((tc == pc2) && likeMatchFuel f ps2 ts) := rfl

theorem fuelStep_lit_nil (f : Nat) (pc : Char) (ps : List Char)
    (h1 : pc ≠ '%') (h2 : pc ≠ '_') (h3 : pc ≠ '\\') :
    likeMatchFuel (f + 1) (pc :: ps) [] = false := by
  show (if pc = '%' then _ else if pc = '_' then _ else if pc = '\\' then _ else _) = false
  rw [if_neg h1, if_neg h2, if_neg h3]

theorem fuelStep_lit_cons (f : Nat) (pc : Char) (ps : List Char) (tc : Char) (ts : List Char)
    (h1 : pc ≠ '%') (h2 : pc ≠ '_') (h3 : pc ≠ '\\') :
    likeMatchFuel (f + 1) (pc :: ps) (tc :: ts) = ((tc == pc) && likeMatchFuel f ps ts) := by
  show (if pc = '%' then _ else if pc = '_' then _ else if pc = '\\' then _ else _) =
    ((tc == pc) && likeMatchFuel f ps ts)
  rw [if_neg h1, if_neg h2, if_neg h3]

/-- Any two sufficient fuels agree. -/
theorem likeMatchFuel_congr :
    ∀ (f1 f2 : Nat) (p t : List Char),
      p.length + t.length < f1 → p.length + t.length < f2 →
      likeMatchFuel f1 p t = likeMatchFuel f2 p t := by
  intro f1
  induction f1 with
  | zero => intro f2 p t h1 _; omega
  | succ n ih =>
    intro f2 p t h1 h2
    match f2, h2 with
    | m + 1, h2 =>
      match p with
      | [] => rfl
      | pc :: ps =>
        by_cases hpc : pc = '%'
        · subst hpc
          match t with
          | [] =>
            rw [fuelStep_percent_nil, fuelStep_percent_nil]
            apply ih <;> simp at h1 h2 ⊢ <;> omega
          | tc :: ts =>
            rw [fuelStep_percent_cons, fuelStep_percent_cons]
            rw [ih m ps (tc :: ts) (by simp at h1 ⊢; omega) (by simp at h2 ⊢; omega),
                ih m ('%' :: ps) ts (by simp at h1 ⊢; omega) (by simp at h2 ⊢; omega)]
        · by_cases hus : pc = '_'
          · subst hus
            match t with
            | [] => rfl
            | tc :: ts =>
              rw [fuelStep_underscore_cons, fuelStep_underscore_cons]
              apply ih <;> simp at h1 h2 ⊢ <;> omega
          · by_cases hbs : pc = '\\'
            · subst hbs
              match ps with
              | [] => rw [fuelStep_backslash_nil_p, fuelStep_backslash_nil_p]
              | pc2 :: ps2 =>
                match t with
                | [] => rfl
                | tc :: ts =>
                  rw [fuelStep_backslash_cons, fuelStep_backslash_cons]
                  rw [ih m ps2 ts (by simp at h1 ⊢; omega) (by simp at h2 ⊢; omega)]
            · match t with
              | [] =>
                rw [fuelStep_lit_nil n pc ps hpc hus hbs, fuelStep_lit_nil m pc ps hpc hus hbs]
              | tc :: ts =>
                rw [fuelStep_lit_cons n pc ps tc ts hpc hus hbs,
                    fuelStep_lit_cons m pc ps tc ts hpc hus hbs]
                rw [ih m ps ts (by simp at h1 ⊢; omega) (by simp at h2 ⊢; omega)]

theorem likeMatchFuel_eq_likeMatch (fuel : Nat) (p t : List Char)
    (h : p.length + t.length < fuel) :
    likeMatchFuel fuel p t = likeMatch p t :=
  likeMatchFuel_congr fuel (p.length + t.length + 1) p t h (by omega)

/-! Step equations for `likeMatch` itself. -/

theorem likeMatch_nil (t : List Char) : likeMatch [] t = t.isEmpty := by
  cases t <;> rfl

theorem likeMatch_percent_nil (ps : List Char) :
    likeMatch ('%' :: ps) [] = likeMatch ps [] := by
  show likeMatchFuel (('%' :: ps).length + 0 + 1) ('%' :: ps) [] = _
  have : ('%' :: ps).length + 0 + 1 = ps.length + 1 + 1 := by simp
  rw [this, fuelStep_percent_nil]
  exact likeMatchFuel_eq_likeMatch _ ps [] (by simp)

theorem likeMatch_percent_cons (ps : List Char) (c : Char) (ts : List Char) :
    likeMatch ('%' :: ps) (c :: ts) =
      (likeMatch ps (c :: ts) || likeMatch ('%' :: ps) ts) := by
  show likeMatchFuel (('%' :: ps).length + (c :: ts).length + 1) _ _ = _
  have : ('%' :: ps).length + (c :: ts).length + 1 =
      (ps.length + ts.length + 2) + 1 := by simp; omega
  rw [this, fuelStep_percent_cons]
  rw [likeMatchFuel_eq_likeMatch _ ps (c :: ts) (by simp; omega),
      likeMatchFuel_eq_likeMatch _ ('%' :: ps) ts (by simp; omega)]

theorem likeMatch_underscore_nil (ps : List Char) :
    likeMatch ('_' :: ps) [] = false := rfl

theorem likeMatch_underscore_cons (ps : List Char) (c : Char) (ts : List Char) :
    likeMatch ('_' :: ps) (c :: ts) = likeMatch ps ts := by
  show likeMatchFuel (('_' :: ps).length + (c :: ts).length + 1) _ _ = _
  have : ('_' :: ps).length + (c :: ts).length + 1 =
      (ps.length + ts.length + 2) + 1 := by simp; omega
  rw [this, fuelStep_underscore_cons]
  exact likeMatchFuel_eq_likeMatch _ ps ts (by omega)

theorem likeMatch_backslash_nil (pc2 : Char) (ps2 : List Char) :
    likeMatch ('\\' :: pc2 :: ps2) [] = false := rfl

theorem likeMatch_backslash_cons (pc2 : Char) (ps2 : List Char) (tc : Char) (ts : List Char) :
    likeMatch ('\\' :: pc2 :: ps2) (tc :: ts) = ((tc == pc2) && likeMatch ps2 ts) := by
  show likeMatchFuel (('\\' :: pc2 :: ps2).length + (tc :: ts).length + 1) _ _ = _
  have : ('\\' :: pc2 :: ps2).length + (tc :: ts).length + 1 =
      (ps2.length + ts.length + 3) + 1 := by simp; omega
  rw [this, fuelStep_backslash_cons]
  rw [likeMatchFuel_eq_likeMatch _ ps2 ts (by omega)]

theorem likeMatch_lit_nil (pc : Char) (ps : List Char)
    (h1 : pc ≠ '%') (h2 : pc ≠ '_') (h3 : pc ≠ '\\') :
    likeMatch (pc :: ps) [] = false := by
  show likeMatchFuel ((pc :: ps).length + 0 + 1) _ _ = _
  have : (pc :: ps).length + 0 + 1 = (ps.length + 1) + 1 := by simp
  rw [this, fuelStep_lit_nil _ pc ps h1 h2 h3]

theorem likeMatch_lit_cons (pc : Char) (ps : List Char) (tc : Char) (ts : List Char)
    (h1 : pc ≠ '%') (h2 : pc ≠ '_') (h3 : pc ≠ '\\') :
    likeMatch (pc :: ps) (tc :: ts) = ((tc == pc) && likeMatch ps ts) := by
  show likeMatchFuel ((pc :: ps).length + (tc :: ts).length + 1) _ _ = _
  have : (pc :: ps).length + (tc :: ts).length + 1 =
      (ps.length + ts.length + 2) + 1 := by simp; omega
  rw [this, fuelStep_lit_cons _ pc ps tc ts h1 h2 h3]
  rw [likeMatchFuel_eq_likeMatch _ ps ts (by omega)]

/-! ## Pattern construction

The routes build ILIKE patterns in two different ways. The free-text
`search` parameter is embedded raw — `` `%${search}%` `` — in every
listing (subjects.ts line 33, classes.ts line 24, departments.ts line 29,
and the users router). The scope-name filters go through
`String(x).replace(/[%_]/g, "\\$&")`, which puts a backslash before each
`%` and `_`, before the same `%...%` wrapping (subjects.ts line 41,
classes.ts lines 31 and 36). -/

/-- `x.replace(/[%_]/g, "\\$&")`: prefix every `%` and every `_` with a
backslash. -/
def escapeLikeWildcards : List Char → List Char
  | [] => []
  | c :: rest =>
    if c = '%' ∨ c = '_' then '\\' :: c :: escapeLikeWildcards rest
    else c :: escapeLikeWildcards rest

/-- `` `%${search}%` `` — the free-text search pattern, no escaping. -/
def searchPattern (s : List Char) : List Char :=
  '%' :: s ++ ['%']

/-- `` `%${String(department).replace(/[%_]/g, "\\$&")}%` `` — the
department scope filter of GET /subjects. -/
def deptPattern (s : List Char) : List Char :=
  '%' :: escapeLikeWildcards s ++ ['%']

/-- The subject scope filter of GET /classes (same construction). -/
def subjectPattern (s : List Char) : List Char :=
  '%' :: escapeLikeWildcards s ++ ['%']

/-- The teacher scope filter of GET /classes (same construction). -/
def teacherPattern (s : List Char) : List Char :=
  '%' :: escapeLikeWildcards s ++ ['%']

/-- An escaped run matches literally: matching `escape s ++ ps` against
`t` succeeds exactly when `t` starts with `s` itself and `ps` matches the
rest. Requires `s` free of backslashes (the `replace` call escapes only
`%` and `_`, so a user-supplied backslash would act as an escape). -/
theorem likeMatch_escape_append :
    ∀ (s : List Char), '\\' ∉ s → ∀ (ps t : List Char),
      (likeMatch (escapeLikeWildcards s ++ ps) t = true ↔
        ∃ ts, t = s ++ ts ∧ likeMatch ps ts = true) := by
  intro s
  induction s with
  | nil =>
    intro _ ps t
    constructor
    · intro h; exact ⟨t, rfl, by simpa using h⟩
    · rintro ⟨ts, rfl, h⟩; simpa using h
  | cons c cs ih =>
    intro hs ps t
    have hc : c ≠ '\\' := fun h => hs (h ▸ List.mem_cons_self c cs)
    have hcs : '\\' ∉ cs := fun h => hs (List.mem_cons_of_mem c h)
    by_cases hw : c = '%' ∨ c = '_'
    · -- escaped head: pattern starts with a backslash then the literal c
      have hesc : escapeLikeWildcards (c :: cs) ++ ps =
          '\\' :: c :: (escapeLikeWildcards cs ++ ps) := by
        simp [escapeLikeWildcards, if_pos hw]
      rw [hesc]
      match t with
      | [] =>
        rw [likeMatch_backslash_nil]
        simp
      | tc :: ts =>
        rw [likeMatch_backslash_cons]
        constructor
        · intro h
          have h1 : tc = c := by
            have := (Bool.and_eq_true _ _).mp h
            exact beq_iff_eq.mp this.1
          have h2 := ((Bool.and_eq_true _ _).mp h).2
          obtain ⟨ts2, hts2, hps⟩ := (ih hcs ps ts).mp h2
          exact ⟨ts2, by rw [h1, hts2]; rfl, hps⟩
        · rintro ⟨ts2, hts2, hps⟩
          have h1 : tc = c ∧ ts = cs ++ ts2 := by
            have : tc :: ts = c :: (cs ++ ts2) := hts2
            exact ⟨List.head_eq_of_cons_eq this, List.tail_eq_of_cons_eq this⟩
          rw [Bool.and_eq_true, beq_iff_eq]
          exact ⟨h1.1, (ih hcs ps ts).mpr ⟨ts2, h1.2, hps⟩⟩
    · -- unescaped head: a plain literal character
      push_neg at hw
      have hesc : escapeLikeWildcards (c :: cs) ++ ps =
          c :: (escapeLikeWildcards cs ++ ps) := by
        simp [escapeLikeWildcards, if_neg (by tauto : ¬(c = '%' ∨ c = '_'))]
      rw [hesc]
      match t with
      | [] =>
        rw [likeMatch_lit_nil c _ hw.1 hw.2 hc]
        simp
      | tc :: ts =>
        rw [likeMatch_lit_cons c _ tc ts hw.1 hw.2 hc]
        constructor
        · intro h
          have h1 : tc = c := by
            have := (Bool.and_eq_true _ _).mp h
            exact beq_iff_eq.mp this.1
          have h2 := ((Bool.and_eq_true _ _).mp h).2
          obtain ⟨ts2, hts2, hps⟩ := (ih hcs ps ts).mp h2
          exact ⟨ts2, by rw [h1, hts2]; rfl, hps⟩
        · rintro ⟨ts2, hts2, hps⟩
          have h1 : tc = c ∧ ts = cs ++ ts2 := by
            have : tc :: ts = c :: (cs ++ ts2) := hts2
            exact ⟨List.head_eq_of_cons_eq this, List.tail_eq_of_cons_eq this⟩
          rw [Bool.and_eq_true, beq_iff_eq]
          exact ⟨h1.1, (ih hcs ps ts).mpr ⟨ts2, h1.2, hps⟩⟩

/-- A leading `%` lets the rest of the pattern start anywhere. -/
theorem likeMatch_percent_iff (ps : List Char) :
    ∀ t, likeMatch ('%' :: ps) t = true ↔ ∃ n, likeMatch ps (t.drop n) = true := by
  intro t
  induction t with
  | nil =>
    rw [likeMatch_percent_nil]
    constructor
    · intro h; exact ⟨0, h⟩
    · rintro ⟨n, h⟩; simpa using h
  | cons c ts ih =>
    rw [likeMatch_percent_cons, Bool.or_eq_true]
    constructor
    · rintro (h | h)
      · exact ⟨0, h⟩
      · obtain ⟨n, hn⟩ := ih.mp h
        exact ⟨n + 1, hn⟩
    · rintro ⟨n, hn⟩
      match n with
      | 0 => exact Or.inl hn
      | n + 1 => exact Or.inr (ih.mpr ⟨n, hn⟩)

/-- A trailing lone `%` matches every text. -/
theorem likeMatch_percent_end (t : List Char) : likeMatch ['%'] t = true := by
  refine (likeMatch_percent_iff [] t).mpr ⟨t.length, ?_⟩
  rw [List.drop_length, likeMatch_nil]
  rfl

/-- C3, counterexample. The claim says *every* user-supplied pattern
parameter — the free-text search included — has `%` and `_` escaped, so a
literal `%` in the input never acts as a wildcard. The search parameter
is embedded raw: searching for `50%` produces the pattern `%50%%`, which
matches the text `50xy` even though that text contains no `%` at all —
the user's literal `%` acted as a wildcard. The escaped department filter
on the same input rejects that text. -/
theorem C3_counterexample :
    searchPattern ['5', '0', '%'] = ['%', '5', '0', '%', '%'] ∧
    likeMatch (searchPattern ['5', '0', '%']) ['5', '0', 'x', 'y'] = true ∧
    '%' ∉ (['5', '0', 'x', 'y'] : List Char) ∧
    likeMatch (deptPattern ['5', '0', '%']) ['5', '0', 'x', 'y'] = false := by
  refine ⟨rfl, by decide, by decide, by decide⟩

/-- C3, amended: only the scope-name filters (department on GET /subjects,
subject and teacher on GET /classes) escape `%` and `_`; for those, and
for any input without backslashes, the built pattern matches a text
exactly when the input occurs in it as a literal substring — wildcards in
the user input are inert. The free-text search parameter is embedded
without escaping (refuted by the counterexample). -/
theorem C3_amended (s t : List Char) (hs : '\\' ∉ s) :
    (likeMatch (deptPattern s) t = true ↔ ∃ pre suf, t = pre ++ s ++ suf) ∧
    subjectPattern s = deptPattern s ∧ teacherPattern s = deptPattern s := by
  refine ⟨?_, rfl, rfl⟩
  show likeMatch ('%' :: (escapeLikeWildcards s ++ ['%'])) t = true ↔ _
  rw [likeMatch_percent_iff]
  constructor
  · rintro ⟨n, hn⟩
    obtain ⟨ts, hts, _⟩ := (likeMatch_escape_append s hs ['%'] (t.drop n)).mp hn
    refine ⟨t.take n, ts, ?_⟩
    conv_lhs => rw [← List.take_append_drop n t]
    rw [hts, List.append_assoc]
  · rintro ⟨pre, suf, rfl⟩
    refine ⟨pre.length, ?_⟩
    rw [List.append_assoc, List.drop_left]
    exact (likeMatch_escape_append s hs ['%'] (s ++ suf)).mpr
      ⟨suf, rfl, likeMatch_percent_end suf⟩

/-- C3 witness: the amended theorem applied to the spec's own example —
a department literally named `50%-hub` is found by searching `50%`, and
the match is via literal containment. -/
theorem C3_amended_witness :
    likeMatch (deptPattern ['5', '0', '%']) ['5', '0', '%', '-', 'h', 'u', 'b'] = true :=
  (C3_amended ['5', '0', '%'] ['5', '0', '%', '-', 'h', 'u', 'b'] (by decide)).1.mpr
    ⟨[], ['-', 'h', 'u', 'b'], by decide⟩

/-! ## Relational machinery

Left join, `ORDER BY ... DESC` (insertion sort on the key; ties are left
in an unspecified relative order exactly as SQL leaves them), and
`LIMIT`/`OFFSET` slicing. -/

/-- The joined side of one base row: a row with no partner survives once
with a null partner. -/
def nullExtend {α β : Type} (a : α) (ms : List β) : List (α × Option β) :=
  match ms with
  | [] => [(a, none)]
  | _ => ms.map (fun b => (a, some b))

/-- SQL left join of `rows` against a match function. -/
def leftJoin {α β : Type} (rows : List α) (joinMatches : α → List β) : List (α × Option β) :=
  rows.flatMap (fun a => nullExtend a (joinMatches a))

/-- `ORDER BY key DESC`. -/
def sortDescBy {α : Type} (key : α → Int) (l : List α) : List α :=
  List.insertionSort (fun a b => key b ≤ key a) l

/-- `LIMIT lim OFFSET off`. -/
def slicePage {α : Type} (off lim : Nat) (l : List α) : List α :=
  (l.drop off).take lim

theorem sortDescBy_pairwise {α : Type} (key : α → Int) (l : List α) :
    List.Pairwise (fun a b => key b ≤ key a) (sortDescBy key l) := by
  haveI : IsTotal α (fun a b => key b ≤ key a) := ⟨fun a b => le_total (key b) (key a)⟩
  haveI : IsTrans α (fun a b => key b ≤ key a) :=
    ⟨fun _ _ _ hab hbc => le_trans hbc hab⟩
  exact List.sorted_insertionSort (fun a b => key b ≤ key a) l

theorem sortDescBy_slice_pairwise {α : Type} (key : α → Int) (l : List α) (off lim : Nat) :
    List.Pairwise (fun a b => key b ≤ key a) (slicePage off lim (sortDescBy key l)) := by
  refine List.Pairwise.sublist ?_ (sortDescBy_pairwise key l)
  exact ((List.take_sublist _ _).trans (List.drop_sublist _ _))

/-- JS truthiness of an optional string parameter: `if (x)` skips both
absent and empty-string values. -/
def truthy (s : Option String) : Option String :=
  match s with
  | none => none
  | some s => if s.isEmpty then none else some s

/-! ## GET /departments (departments.ts)

Count: `count(*) from departments where [search]`. List: all department
columns plus `totalSubjects = count(subjects.id)` from a left join to
subjects, grouped by `departments.id`, ordered by `desc(departments.id)`
— the id, not the creation timestamp. -/

def departmentSearchMatches (s : List Char) (d : Department) : Bool :=
  likeMatch (searchPattern s) d.name.toList || likeMatch (searchPattern s) d.code.toList

def departmentsWhere (search : Option String) (d : Department) : Bool :=
  match truthy search with
  | none => true
  | some s => departmentSearchMatches s.toList d

def departmentsCountQuery (db : DB) (search : Option String) : Nat :=
  (db.departments.filter (departmentsWhere search)).length

/-- One row of the departments listing. -/
structure DepartmentRow where
  department : Department
  totalSubjects : Nat
deriving DecidableEq, Repr

def departmentsListQuery (db : DB) (search : Option String) (off lim : Nat) :
    List DepartmentRow :=
  let rows := (db.departments.filter (departmentsWhere search)).map
    (fun d => DepartmentRow.mk d ((db.subjects.filter (fun s => s.departmentId == d.id)).length))
  slicePage off lim (sortDescBy (fun r => r.department.id) rows)

/-! ## GET /subjects (subjects.ts)

Count and list share the same where-clause over a subjects–departments
left join; the list is ordered by `desc(subjects.createdAt)` (no
tie-break). -/

inductive SubjectFilter where
  | searchOr (s : List Char)
  | deptName (s : List Char)
deriving DecidableEq, Repr

def subjectsFilterConditions (search department : Option String) : List SubjectFilter :=
  (match truthy search with
   | some s => [SubjectFilter.searchOr s.toList]
   | none => []) ++
  (match truthy department with
   | some d => [SubjectFilter.deptName d.toList]
   | none => [])

def evalSubjectFilter (f : SubjectFilter) (r : Subject × Option Department) : Bool :=
  match f with
  | .searchOr s =>
    likeMatch (searchPattern s) r.1.name.toList || likeMatch (searchPattern s) r.1.code.toList
  | .deptName s =>
    match r.2 with
    | some d => likeMatch (deptPattern s) d.name.toList
    | none => false

/-- `filterConditions.length > 0 ? and(...filterConditions) : undefined`,
then `where(whereClause)`: no conditions means no filtering at all. -/
def evalSubjectWhere (conds : List SubjectFilter) (r : Subject × Option Department) : Bool :=
  conds.all (fun f => evalSubjectFilter f r)

def subjectsJoined (db : DB) : List (Subject × Option Department) :=
  leftJoin db.subjects (fun s => db.departments.filter (fun d => d.id == s.departmentId))

def subjectsCountQuery (db : DB) (search department : Option String) : Nat :=
  ((subjectsJoined db).filter
    (evalSubjectWhere (subjectsFilterConditions search department))).length

/-- One row of the subjects listing: subject columns plus the embedded
department. -/
structure SubjectRow where
  subject : Subject
  department : Option Department
deriving DecidableEq, Repr

def subjectsListQuery (db : DB) (search department : Option String) (off lim : Nat) :
    List SubjectRow :=
  let rows := ((subjectsJoined db).filter
    (evalSubjectWhere (subjectsFilterConditions search department))).map
    (fun r => SubjectRow.mk r.1 r.2)
  slicePage off lim (sortDescBy (fun r => r.subject.createdAt) rows)

/-! ## GET /classes (classes.ts)

Count and list share a where-clause over classes–subjects–user left
joins; the list is ordered by `desc(classes.createdAt)` (no tie-break). -/

inductive ClassFilter where
  | searchOr (s : List Char)
  | subjectName (s : List Char)
  | teacherName (s : List Char)
deriving DecidableEq, Repr

def classesFilterConditions (search subject teacher : Option String) : List ClassFilter :=
  (match truthy search with
   | some s => [ClassFilter.searchOr s.toList]
   | none => []) ++
  (match truthy subject with
   | some s => [ClassFilter.subjectName s.toList]
   | none => []) ++
  (match truthy teacher with
   | some t => [ClassFilter.teacherName t.toList]
   | none => [])

def evalClassFilter (f : ClassFilter) (r : (ClassRec × Option Subject) × Option User) : Bool :=
  match f with
  | .searchOr s =>
    likeMatch (searchPattern s) r.1.1.name.toList ||
      likeMatch (searchPattern s) r.1.1.inviteCode.toList
  | .subjectName s =>
    match r.1.2 with
    | some subj => likeMatch (subjectPattern s) subj.name.toList
    | none => false
  | .teacherName s =>
    match r.2 with
    | some u => likeMatch (teacherPattern s) u.name.toList
    | none => false

def evalClassWhere (conds : List ClassFilter) (r : (ClassRec × Option Subject) × Option User) :
    Bool :=
  conds.all (fun f => evalClassFilter f r)

def classesJoined (db : DB) : List ((ClassRec × Option Subject) × Option User) :=
  leftJoin
    (leftJoin db.classes (fun c => db.subjects.filter (fun s => s.id == c.subjectId)))
    (fun r => db.users.filter (fun u => u.id == r.1.teacherId))

def classesCountQuery (db : DB) (search subject teacher : Option String) : Nat :=
  ((classesJoined db).filter
    (evalClassWhere (classesFilterConditions search subject teacher))).length

/-- One row of the classes listing: class columns plus the embedded
subject and teacher. -/
structure ClassListRow where
  cls : ClassRec
  subject : Option Subject
  teacher : Option User
deriving DecidableEq, Repr

def classesListQuery (db : DB) (search subject teacher : Option String) (off lim : Nat) :
    List ClassListRow :=
  let rows := ((classesJoined db).filter
    (evalClassWhere (classesFilterConditions search subject teacher))).map
    (fun r => ClassListRow.mk r.1.1 r.1.2 r.2)
  slicePage off lim (sortDescBy (fun r => r.cls.createdAt) rows)

/-! ## GET /users (classes.ts, users router)

The count query filters `from(user)` by the search/role where-clause.
The list query is built `from(user)` **without any where-clause** —
`whereClause` is computed but never applied to it — ordered by
`desc(user.createdAt)` and sliced. -/

inductive UserFilter where
  | searchOr (s : List Char)
  | roleEq (r : String)
deriving DecidableEq, Repr

def usersFilterConditions (search role : Option String) : List UserFilter :=
  (match truthy search with
   | some s => [UserFilter.searchOr s.toList]
   | none => []) ++
  (match truthy role with
   | some r => [UserFilter.roleEq r]
   | none => [])

def evalUserFilter (f : UserFilter) (u : User) : Bool :=
  match f with
  | .searchOr s =>
    likeMatch (searchPattern s) u.name.toList || likeMatch (searchPattern s) u.email.toList
  | .roleEq r => u.role == r

def evalUserWhere (conds : List UserFilter) (u : User) : Bool :=
  conds.all (fun f => evalUserFilter f u)

def usersCountQuery (db : DB) (search role : Option String) : Nat :=
  (db.users.filter (evalUserWhere (usersFilterConditions search role))).length

/-- The list query with its `limit`/`offset` removed: all of `user`,
sorted — no where-clause appears in the source. -/
def usersListQueryUnbounded (db : DB) : List User :=
  sortDescBy (fun u => u.createdAt) db.users

def usersListQuery (db : DB) (off lim : Nat) : List User :=
  slicePage off lim (usersListQueryUnbounded db)

/-! ## C6: listing order -/

/-- Fixture for C6: department 1 is newest by `createdAt` but has the
smallest id. -/
def depAlpha : Department := ⟨1, "a", "alpha", "", 100, 100⟩

def depBeta : Department := ⟨2, "b", "beta", "", 50, 50⟩

def dbOrder : DB := ⟨[depAlpha, depBeta], [], [], [], []⟩

/-- C6, counterexample. The claim says every listing — the departments
listing included — orders newest first by creation timestamp with ties
broken by primary key. The departments listing orders by
`desc(departments.id)` (departments.ts line 54): with department 1
created at time 100 and department 2 created at time 50, the code
returns department 2 first even though department 1 is newer, and no
endpoint adds a primary-key tie-break. -/
theorem C6_counterexample :
    departmentsListQuery dbOrder none 0 10 =
      [DepartmentRow.mk depBeta 0, DepartmentRow.mk depAlpha 0] ∧
    depBeta.createdAt < depAlpha.createdAt := by
  refine ⟨by decide, by decide⟩

/-- C6, amended: each listing's order is deterministic in its sort key,
but the departments listing sorts by id descending (not creation
timestamp), and the subjects, classes and users listings sort by
creation timestamp descending with no primary-key tie-break (rows with
equal timestamps are in no specified relative order). -/
theorem C6_amended (db : DB) (search dept subj teach : Option String) (off lim : Nat) :
    List.Pairwise (fun a b => b.department.id ≤ a.department.id)
      (departmentsListQuery db search off lim) ∧
    List.Pairwise (fun a b => b.subject.createdAt ≤ a.subject.createdAt)
      (subjectsListQuery db search dept off lim) ∧
    List.Pairwise (fun a b => b.cls.createdAt ≤ a.cls.createdAt)
      (classesListQuery db search subj teach off lim) ∧
    List.Pairwise (fun a b => b.createdAt ≤ a.createdAt)
      (usersListQuery db off lim) :=
  ⟨sortDescBy_slice_pairwise (fun r : DepartmentRow => r.department.id) _ off lim,
   sortDescBy_slice_pairwise (fun r : SubjectRow => r.subject.createdAt) _ off lim,
   sortDescBy_slice_pairwise (fun r : ClassListRow => r.cls.createdAt) _ off lim,
   sortDescBy_slice_pairwise (fun u : User => u.createdAt) _ off lim⟩

/-! ## C1: count/list consistency of GET /users -/

def teacherT : User := ⟨"t1", "teacher t", "t@example.com", true, "", "teacher", "", 100, 100⟩

def studentS : User := ⟨"s1", "student s", "s@example.com", true, "", "student", "", 90, 90⟩

def dbUsers : DB := ⟨[], [], [], [teacherT, studentS], []⟩

/-- C1: the count/list invariant is broken by GET /users. The count query
applies the search/role where-clause (classes.ts users router, count at
lines 167–170), but the list query is assembled without any
where-clause (lines 174–179) — `whereClause` is computed and then never
used by it. With one teacher and one student and `role=teacher`,
`totalCount` is 1 while the unbounded list query returns both users, so
the two queries disagree on the same request. (The teacher branch of
GET /subjects/:id/users is broken differently: its count query is built
`from(classes)` with a second, self-colliding `leftJoin(classes, ...)`
while its list query is built `from(user)`, so the topologies differ
there as well.) -/
theorem C1_users_count_list_divergence :
    usersCountQuery dbUsers none (some "teacher") = 1 ∧
    (usersListQueryUnbounded dbUsers).length = 2 ∧
    usersListQuery dbUsers 0 10 = [teacherT, studentS] := by
  refine ⟨by decide, by decide, by decide⟩

/-! ## Responses and handlers

A parsed path id (`Number(req.params.id)`) is either a finite number or
NaN; ids are integral in practice, so the finite case carries an `Int`.
Handlers that normalize pagination with `Math.max(1, +x)` are modeled on
numeric page/limit inputs (`Int`); the NaN corner of that normalizer is
analyzed separately on `normBPage`/`normBLimit` above. -/

inductive RawId where
  | valid (n : Int)
  | invalid
deriving DecidableEq, Repr

/-- The `{page, limit, total, totalPages}` envelope around `data`. -/
structure Paginated (α : Type) where
  data : List α
  page : Int
  limit : Int
  total : Nat
  totalPages : Nat
deriving DecidableEq, Repr

inductive ApiResponse (α : Type) where
  | success (status : Nat) (body : α)
  | clientError (status : Nat) (message : String)
  | serverError (message : String)
deriving DecidableEq, Repr

/-- `GET /users` (classes.ts, users router). Builds `filterConditions`,
applies them in the count query only — the list query carries no
where-clause — and always answers 200; the `role` value is pushed into
the storage predicate without any validation. -/
def usersHandler (db : DB) (search role : Option String) (page limit : RawParam) :
    ApiResponse (Paginated User) :=
  let currentPage := normAPage page
  let limitPerPage := normALimit limit
  let offset := ((currentPage - 1) * limitPerPage).toNat
  let total := usersCountQuery db search role
  ApiResponse.success 200
    (Paginated.mk (usersListQuery db offset limitPerPage.toNat)
      currentPage limitPerPage total (ceilDiv total limitPerPage.toNat))

/-- `select().from(user).where(eq(user.id, userId))` with `[userRecord]`
destructuring: the first matching row, if any. -/
def findUser (db : DB) (uid : String) : Option User :=
  (db.users.filter (fun u => u.id == uid)).head?

/-- `count(*) from subjects where subjects.id = subjectId` — the
`classesCount` query of GET /subjects/:id counts *subjects*, not
classes (subjects.ts lines 128–131). -/
def subjectTotalsClasses (db : DB) (sid : Int) : Nat :=
  (db.subjects.filter (fun s => s.id == sid)).length

structure SubjectDetailsBody where
  subject : Subject
  department : Option Department
  totalsClasses : Nat
deriving DecidableEq, Repr

/-- `GET /subjects/:id` (subjects.ts lines 107–140): 400 on a NaN id,
404 when no row matches, otherwise the subject with its department and
`totals.classes`. -/
def subjectDetailsHandler (db : DB) (rawId : RawId) : ApiResponse SubjectDetailsBody :=
  match rawId with
  | .invalid => .clientError 400 "Invalid subject id."
  | .valid sid =>
    match ((subjectsJoined db).filter (fun r => r.1.id == sid)).head? with
    | none => .clientError 404 "Subject not found."
    | some r => .success 200 (SubjectDetailsBody.mk r.1 r.2 (subjectTotalsClasses db sid))

structure ClassTeacherRow where
  cls : ClassRec
  teacher : Option User
deriving DecidableEq, Repr

/-- `GET /subjects/:id/classes` (subjects.ts lines 142–187): 400 on a NaN
id; otherwise count and paginated list of the subject's classes — with
no check that the subject itself exists. -/
def subjectClassesHandler (db : DB) (rawId : RawId) (page limit : Int) :
    ApiResponse (Paginated ClassTeacherRow) :=
  match rawId with
  | .invalid => .clientError 400 "Invalid subject id."
  | .valid sid =>
    let currentPage : Int := max 1 page
    let limitPerPage : Int := max 1 limit
    let offset := ((currentPage - 1) * limitPerPage).toNat
    let total := (db.classes.filter (fun c => c.subjectId == sid)).length
    let rows := ((leftJoin db.classes (fun c => db.users.filter (fun u => u.id == c.teacherId))).filter
      (fun r => r.1.subjectId == sid)).map (fun r => ClassTeacherRow.mk r.1 r.2)
    .success 200
      (Paginated.mk (slicePage offset limitPerPage.toNat (sortDescBy (fun r => r.cls.createdAt) rows))
        currentPage limitPerPage total (ceilDiv total limitPerPage.toNat))

/-- users–enrollments–classes join of the student branch of
`GET /subjects/:id/users`: `from(user)`, `leftJoin(enrollments,
eq(user.id, enrollments.studentId))`, `leftJoin(classes,
eq(enrollments.classId, classes.id))`. -/
def usersEnrollClasses (db : DB) : List ((User × Option Enrollment) × Option ClassRec) :=
  leftJoin
    (leftJoin db.users (fun u => db.enrollments.filter (fun e => e.studentId == u.id)))
    (fun r =>
      match r.2 with
      | some e => db.classes.filter (fun c => c.id == e.classId)
      | none => [])

def subjectUsersStudentWhere (role : String) (sid : Int)
    (r : (User × Option Enrollment) × Option ClassRec) : Bool :=
  (r.1.1.role == role) &&
    (match r.2 with
     | some c => c.subjectId == sid
     | none => false)

/-- `count(distinct user.id)` of the student branch. -/
def subjectUsersStudentCount (db : DB) (role : String) (sid : Int) : Nat :=
  (((usersEnrollClasses db).filter (subjectUsersStudentWhere role sid)).map
    (fun r => r.1.1.id)).dedup.length

/-- Student-branch list: `baseSelect` of user columns, grouped by the full
user column set (dedup), ordered by `desc(user.createdAt)`, sliced. -/
def subjectUsersStudentList (db : DB) (role : String) (sid : Int) (off lim : Nat) :
    List User :=
  slicePage off lim (sortDescBy (fun u => u.createdAt)
    (((usersEnrollClasses db).filter (subjectUsersStudentWhere role sid)).map
      (fun r => r.1.1)).dedup)

/-- `GET /subjects/:id/users` (subjects.ts lines 190–282): 400 on a NaN
id, 400 unless `role` is exactly `teacher` or `student`. The teacher
branch's count query is built `from(classes)` with a second
`leftJoin(classes, ...)` on the same un-aliased table while referencing
the never-joined `user` table; the query builder rejects the duplicate
alias at run time, the `catch` turns it into the generic 500. The
student branch runs the count and grouped list above. -/
def subjectUsersHandler (db : DB) (rawId : RawId) (role : Option String) (page limit : Int) :
    ApiResponse (Paginated User) :=
  match rawId with
  | .invalid => .clientError 400 "Invalid subject id."
  | .valid sid =>
    if role ≠ some "teacher" ∧ role ≠ some "student" then
      .clientError 400 "Invalid role"
    else
      let currentPage : Int := max 1 page
      let limitPerPage : Int := max 1 limit
      let offset := ((currentPage - 1) * limitPerPage).toNat
      if role = some "teacher" then
        .serverError "Failed to get subject users"
      else
        let total := subjectUsersStudentCount db "student" sid
        .success 200
          (Paginated.mk (subjectUsersStudentList db "student" sid offset limitPerPage.toNat)
            currentPage limitPerPage total (ceilDiv total limitPerPage.toNat))

/-! subjects–classes joins of GET /users/:id/subjects (classes.ts, users
router, lines 317–434). -/

/-- Count-query join of the teacher branch: `from(subjects)`,
`leftJoin(classes, eq(classes.subjectId, subjects.id))`. -/
def subjectsClasses (db : DB) : List (Subject × Option ClassRec) :=
  leftJoin db.subjects (fun s => db.classes.filter (fun c => c.subjectId == s.id))

def taughtClassWhere (uid : String) (c? : Option ClassRec) : Bool :=
  match c? with
  | some c => c.teacherId == uid
  | none => false

/-- Teacher count: `count(distinct subjects.id)` where
`classes.teacherId = userId`. -/
def userSubjectsTeacherCount (db : DB) (uid : String) : Nat :=
  (((subjectsClasses db).filter (fun r => taughtClassWhere uid r.2)).map
    (fun r => r.1.id)).dedup.length

/-- List-query join of the teacher branch: subjects with departments
embedded, then classes. -/
def subjectsDeptsClasses (db : DB) : List ((Subject × Option Department) × Option ClassRec) :=
  leftJoin (subjectsJoined db) (fun r => db.classes.filter (fun c => c.subjectId == r.1.id))

/-- Teacher list: grouped by the full subject + department column sets
(dedup), ordered by `desc(subjects.createdAt)`, sliced. -/
def userSubjectsTeacherList (db : DB) (uid : String) (off lim : Nat) : List SubjectRow :=
  slicePage off lim (sortDescBy (fun r => r.subject.createdAt)
    (((subjectsDeptsClasses db).filter (fun r => taughtClassWhere uid r.2)).map
      (fun r => SubjectRow.mk r.1.1 r.1.2)).dedup)

def enrollmentsOfClass (db : DB) (c? : Option ClassRec) : List Enrollment :=
  match c? with
  | some c => db.enrollments.filter (fun e => e.classId == c.id)
  | none => []

def enrolledWhere (uid : String) (e? : Option Enrollment) : Bool :=
  match e? with
  | some e => e.studentId == uid
  | none => false

/-- Count-query join of the student branch: subjects, classes,
enrollments (`eq(enrollments.classId, classes.id)`). -/
def subjectsClassesEnrolls (db : DB) :
    List ((Subject × Option ClassRec) × Option Enrollment) :=
  leftJoin (subjectsClasses db) (fun r => enrollmentsOfClass db r.2)

/-- Student count: `count(distinct subjects.id)` where
`enrollments.studentId = userId`. -/
def userSubjectsStudentCount (db : DB) (uid : String) : Nat :=
  (((subjectsClassesEnrolls db).filter (fun r => enrolledWhere uid r.2)).map
    (fun r => r.1.1.id)).dedup.length

def subjectsDeptsClassesEnrolls (db : DB) :
    List (((Subject × Option Department) × Option ClassRec) × Option Enrollment) :=
  leftJoin (subjectsDeptsClasses db) (fun r => enrollmentsOfClass db r.2)

def userSubjectsStudentList (db : DB) (uid : String) (off lim : Nat) : List SubjectRow :=
  slicePage off lim (sortDescBy (fun r => r.subject.createdAt)
    (((subjectsDeptsClassesEnrolls db).filter (fun r => enrolledWhere uid r.2)).map
      (fun r => SubjectRow.mk r.1.1.1 r.1.1.2)).dedup)

/-- `GET /users/:id/subjects`: 404 for an unknown user; for an existing
user whose role is neither teacher nor student, the hard-coded empty
envelope `{page: 1, limit: 0, total: 0, totalPages: 0}` with empty data —
pagination normalization is skipped entirely; otherwise the role-matched
count and grouped list. -/
def userSubjectsHandler (db : DB) (uid : String) (page limit : Int) :
    ApiResponse (Paginated SubjectRow) :=
  match findUser db uid with
  | none => .clientError 404 "User not found."
  | some u =>
    if u.role ≠ "teacher" ∧ u.role ≠ "student" then
      .success 200 (Paginated.mk [] 1 0 0 0)
    else
      let currentPage : Int := max 1 page
      let limitPerPage : Int := max 1 limit
      let offset := ((currentPage - 1) * limitPerPage).toNat
      let total :=
        if u.role = "teacher" then userSubjectsTeacherCount db uid
        else userSubjectsStudentCount db uid
      let rows :=
        if u.role = "teacher" then userSubjectsTeacherList db uid offset limitPerPage.toNat
        else userSubjectsStudentList db uid offset limitPerPage.toNat
      .success 200
        (Paginated.mk rows currentPage limitPerPage total (ceilDiv total limitPerPage.toNat))

/-! departments–subjects–classes joins of GET /users/:id/departments
(classes.ts, users router, lines 216–315). -/

def deptsSubjectsClasses (db : DB) :
    List ((Department × Option Subject) × Option ClassRec) :=
  leftJoin
    (leftJoin db.departments (fun d => db.subjects.filter (fun s => s.departmentId == d.id)))
    (fun r =>
      match r.2 with
      | some s => db.classes.filter (fun c => c.subjectId == s.id)
      | none => [])

def userDepartmentsTeacherCount (db : DB) (uid : String) : Nat :=
  (((deptsSubjectsClasses db).filter (fun r => taughtClassWhere uid r.2)).map
    (fun r => r.1.1.id)).dedup.length

def userDepartmentsTeacherList (db : DB) (uid : String) (off lim : Nat) : List Department :=
  slicePage off lim (sortDescBy (fun d => d.createdAt)
    (((deptsSubjectsClasses db).filter (fun r => taughtClassWhere uid r.2)).map
      (fun r => r.1.1)).dedup)

def deptsSubjectsClassesEnrolls (db : DB) :
    List (((Department × Option Subject) × Option ClassRec) × Option Enrollment) :=
  leftJoin (deptsSubjectsClasses db) (fun r => enrollmentsOfClass db r.2)

def userDepartmentsStudentCount (db : DB) (uid : String) : Nat :=
  (((deptsSubjectsClassesEnrolls db).filter (fun r => enrolledWhere uid r.2)).map
    (fun r => r.1.1.1.id)).dedup.length

def userDepartmentsStudentList (db : DB) (uid : String) (off lim : Nat) : List Department :=
  slicePage off lim (sortDescBy (fun d => d.createdAt)
    (((deptsSubjectsClassesEnrolls db).filter (fun r => enrolledWhere uid r.2)).map
      (fun r => r.1.1.1)).dedup)

/-- `GET /users/:id/departments`: same shape as `GET /users/:id/subjects`
over the departments traversal. -/
def userDepartmentsHandler (db : DB) (uid : String) (page limit : Int) :
    ApiResponse (Paginated Department) :=
  match findUser db uid with
  | none => .clientError 404 "User not found."
  | some u =>
    if u.role ≠ "teacher" ∧ u.role ≠ "student" then
      .success 200 (Paginated.mk [] 1 0 0 0)
    else
      let currentPage : Int := max 1 page
      let limitPerPage : Int := max 1 limit
      let offset := ((currentPage - 1) * limitPerPage).toNat
      let total :=
        if u.role = "teacher" then userDepartmentsTeacherCount db uid
        else userDepartmentsStudentCount db uid
      let rows :=
        if u.role = "teacher" then userDepartmentsTeacherList db uid offset limitPerPage.toNat
        else userDepartmentsStudentList db uid offset limitPerPage.toNat
      .success 200
        (Paginated.mk rows currentPage limitPerPage total (ceilDiv total limitPerPage.toNat))

/-! ## Helper lemmas for the handler theorems -/

theorem filter_fst_nullExtend {α β : Type} (p : α → Bool) (a : α) (ms : List β) :
    (nullExtend a ms).filter (fun r => p r.1) = if p a then nullExtend a ms else [] := by
  cases ms with
  | nil =>
    by_cases hpa : p a <;> simp [nullExtend, hpa]
  | cons b bs =>
    simp only [nullExtend]
    by_cases hpa : p a <;> simp [hpa, List.filter_map, Function.comp_def]

/-- A where-clause over base-table columns commutes with a left join. -/
theorem leftJoin_filter_fst {α β : Type} (p : α → Bool) (l : List α) (f : α → List β) :
    (leftJoin l f).filter (fun r => p r.1) = leftJoin (l.filter p) f := by
  induction l with
  | nil => rfl
  | cons a t ih =>
    simp only [leftJoin, List.flatMap_cons, List.filter_append, List.filter_cons] at ih ⊢
    rw [filter_fst_nullExtend]
    by_cases hpa : p a
    · simp only [if_pos hpa, List.flatMap_cons]
      rw [ih]
    · simp only [if_neg hpa, List.nil_append]
      rw [ih]

/-- In a list whose keys are pairwise distinct, filtering for the key of
a member finds exactly one row. -/
theorem filter_key_unique {α : Type} (key : α → Int) :
    ∀ (l : List α) (a : α), (l.map key).Nodup → a ∈ l →
      (l.filter (fun x => key x == key a)).length = 1 := by
  intro l
  induction l with
  | nil => intro a _ h; cases h
  | cons b t ih =>
    intro a hnd hmem
    rw [List.map_cons, List.nodup_cons] at hnd
    rw [List.filter_cons]
    rcases List.mem_cons.mp hmem with rfl | hat
    · rw [if_pos (by simp)]
      have hzero : t.filter (fun x => key x == key a) = [] := by
        rw [List.filter_eq_nil_iff]
        intro x hx hkey
        exact hnd.1 ((beq_iff_eq.mp hkey) ▸ List.mem_map_of_mem key hx)
      rw [hzero]
      rfl
    · have hne : (key b == key a) = false := by
        rw [beq_eq_false_iff_ne]
        intro hkey
        exact hnd.1 (hkey ▸ List.mem_map_of_mem key hat)
      rw [if_neg (by simp [hne])]
      exact ih a hnd.2 hat

/-! ## C4: role branching -/

/-- C4. On the role-required endpoint GET /subjects/:id/users, a role
outside `{teacher, student}` (including an absent one) is rejected with
400 before any query runs. On the role-branching-but-optional endpoints
GET /users/:id/subjects and GET /users/:id/departments, an existing user
with any other role gets 200 with empty data and the hard-coded envelope
`page=1, limit=0, total=0, totalPages=0` — the limit clamping is never
reached — and never an error. -/
theorem C4_role_branching (db : DB) (uid : String) (u : User) (sid : Int)
    (role : Option String) (p l : Int)
    (hu : findUser db uid = some u)
    (ht : u.role ≠ "teacher") (hs : u.role ≠ "student")
    (hrt : role ≠ some "teacher") (hrs : role ≠ some "student") :
    userSubjectsHandler db uid p l = ApiResponse.success 200 (Paginated.mk [] 1 0 0 0) ∧
    userDepartmentsHandler db uid p l = ApiResponse.success 200 (Paginated.mk [] 1 0 0 0) ∧
    subjectUsersHandler db (RawId.valid sid) role p l =
      ApiResponse.clientError 400 "Invalid role" := by
  refine ⟨?_, ?_, ?_⟩
  · simp only [userSubjectsHandler, hu]
    rw [if_pos ⟨ht, hs⟩]
  · simp only [userDepartmentsHandler, hu]
    rw [if_pos ⟨ht, hs⟩]
  · simp only [subjectUsersHandler]
    rw [if_pos ⟨hrt, hrs⟩]

def adminUser : User := ⟨"a1", "admin", "a@example.com", true, "", "admin", "", 100, 100⟩

def dbAdmin : DB := ⟨[], [], [], [adminUser], []⟩

/-- C4 witness: an admin user and a `role=wizard` request. -/
theorem C4_role_branching_witness :
    userSubjectsHandler dbAdmin "a1" 1 10 = ApiResponse.success 200 (Paginated.mk [] 1 0 0 0) ∧
    userDepartmentsHandler dbAdmin "a1" 1 10 =
      ApiResponse.success 200 (Paginated.mk [] 1 0 0 0) ∧
    subjectUsersHandler dbAdmin (RawId.valid 1) (some "wizard") 1 10 =
      ApiResponse.clientError 400 "Invalid role" :=
  C4_role_branching dbAdmin "a1" adminUser 1 (some "wizard") 1 10
    (by decide) (by decide) (by decide) (by decide) (by decide)

/-! ## C5: not-found behavior -/

def dbEmpty : DB := ⟨[], [], [], [], []⟩

/-- C5, counterexample. The claim says the scoped listing
GET /subjects/:id/classes answers 404 for a valid id of a nonexistent
subject. The handler (subjects.ts lines 142–187) never checks that the
subject exists: on an empty store and id 5 it answers 200 with an empty
page, while the detail endpoint GET /subjects/:id does answer 404. -/
theorem C5_counterexample :
    subjectClassesHandler dbEmpty (RawId.valid 5) 1 10 =
      ApiResponse.success 200 (Paginated.mk [] 1 10 0 0) ∧
    subjectDetailsHandler dbEmpty (RawId.valid 5) =
      ApiResponse.clientError 404 "Subject not found." := by
  refine ⟨by decide, by decide⟩

/-- The joined component of a left-join row is drawn from the match
function's output for that row's base. -/
theorem mem_leftJoin_snd {α β : Type} {l : List α} {f : α → List β} {r : α × Option β}
    (h : r ∈ leftJoin l f) : r.2 = none ∨ ∃ b, r.2 = some b ∧ b ∈ f r.1 := by
  obtain ⟨a, _, hr⟩ := List.mem_flatMap.mp h
  cases hfa : f a with
  | nil =>
    rw [hfa] at hr
    simp only [nullExtend, List.mem_singleton] at hr
    left
    rw [hr]
  | cons b bs =>
    rw [hfa] at hr
    simp only [nullExtend, List.mem_map] at hr
    obtain ⟨b2, hb2, hrb⟩ := hr
    right
    refine ⟨b2, ?_, ?_⟩
    · rw [← hrb]
    · rw [← hrb]
      simpa [hfa] using hb2

/-- Every class a row of the users–enrollments–classes join carries comes
from the classes table. -/
theorem usersEnrollClasses_class_mem (db : DB)
    (r : (User × Option Enrollment) × Option ClassRec) (h : r ∈ usersEnrollClasses db) :
    r.2 = none ∨ ∃ c, r.2 = some c ∧ c ∈ db.classes := by
  rcases mem_leftJoin_snd h with hn | ⟨c, hc, hmem⟩
  · exact Or.inl hn
  · refine Or.inr ⟨c, hc, ?_⟩
    cases he : r.1.2 with
    | none => rw [he] at hmem; cases hmem
    | some e => rw [he] at hmem; exact List.mem_of_mem_filter hmem

/-- When no class references the subject id, the student branch's
where-clause over the users–enrollments–classes join holds of no row. -/
theorem subjectUsers_student_filter_nil (db : DB) (sid : Int)
    (hcls : db.classes.filter (fun c => c.subjectId == sid) = []) :
    (usersEnrollClasses db).filter (subjectUsersStudentWhere "student" sid) = [] := by
  rw [List.filter_eq_nil_iff]
  intro r hr
  rcases usersEnrollClasses_class_mem db r hr with hn | ⟨c, hc, hmem⟩
  · simp [subjectUsersStudentWhere, hn]
  · have hcf : (c.subjectId == sid) = false := by
      rcases Bool.eq_false_or_eq_true (c.subjectId == sid) with h | h
      · exfalso
        have hcmem : c ∈ db.classes.filter (fun x => x.subjectId == sid) :=
          List.mem_filter.mpr ⟨hmem, h⟩
        rw [hcls] at hcmem
        cases hcmem
      · exact h
    simp [subjectUsersStudentWhere, hc, hcf]

/-- C5, amended: the detail endpoint GET /subjects/:id answers 404 for a
valid id with no matching subject, distinct from the 400 validation
error. The scoped listings perform no existence check: for a valid id of
a nonexistent subject, GET /subjects/:id/classes answers 200 with an
empty page (total 0, totalPages 0), and GET /subjects/:id/users with
role=student answers 200 with an empty page as well, while with
role=teacher that endpoint answers the generic 500 for every id (its
malformed self-joining count query fails at run time) — in no case a
404. -/
theorem C5_amended (db : DB) (sid : Int) (p l : Int)
    (hsub : db.subjects.filter (fun s => s.id == sid) = [])
    (hcls : db.classes.filter (fun c => c.subjectId == sid) = []) :
    subjectDetailsHandler db (RawId.valid sid) =
      ApiResponse.clientError 404 "Subject not found." ∧
    subjectClassesHandler db (RawId.valid sid) p l =
      ApiResponse.success 200 (Paginated.mk [] (max 1 p) (max 1 l) 0 0) ∧
    subjectUsersHandler db (RawId.valid sid) (some "student") p l =
      ApiResponse.success 200 (Paginated.mk [] (max 1 p) (max 1 l) 0 0) ∧
    subjectUsersHandler db (RawId.valid sid) (some "teacher") p l =
      ApiResponse.serverError "Failed to get subject users" := by
  have hdet :
      List.filter (fun r => r.1.id == sid)
        (leftJoin db.subjects (fun s => List.filter (fun d => d.id == s.departmentId) db.departments)) =
      leftJoin (List.filter (fun s => s.id == sid) db.subjects)
        (fun s => List.filter (fun d => d.id == s.departmentId) db.departments) :=
    leftJoin_filter_fst (fun s => s.id == sid) db.subjects _
  have hlst :
      List.filter (fun r => r.1.subjectId == sid)
        (leftJoin db.classes (fun c => List.filter (fun u => u.id == c.teacherId) db.users)) =
      leftJoin (List.filter (fun c => c.subjectId == sid) db.classes)
        (fun c => List.filter (fun u => u.id == c.teacherId) db.users) :=
    leftJoin_filter_fst (fun c => c.subjectId == sid) db.classes _
  refine ⟨?_, ?_, ?_, ?_⟩
  · simp only [subjectDetailsHandler, subjectsJoined]
    rw [hdet]
    simp only [hsub]
    rfl
  · simp only [subjectClassesHandler]
    rw [hlst]
    simp only [hcls]
    simp [slicePage, sortDescBy, List.insertionSort, ceilDiv_total_zero, leftJoin]
  · simp only [subjectUsersHandler, subjectUsersStudentCount, subjectUsersStudentList]
    rw [if_neg (fun h => h.2 rfl), if_neg (by decide)]
    rw [subjectUsers_student_filter_nil db sid hcls]
    simp [slicePage, sortDescBy, List.insertionSort, ceilDiv_total_zero]
  · simp only [subjectUsersHandler]
    rw [if_neg (fun h => h.1 rfl)]
    simp

/-- C5 witness: the amended theorem on the empty store at id 7. -/
theorem C5_amended_witness :
    subjectDetailsHandler dbEmpty (RawId.valid 7) =
      ApiResponse.clientError 404 "Subject not found." ∧
    subjectClassesHandler dbEmpty (RawId.valid 7) 2 5 =
      ApiResponse.success 200 (Paginated.mk [] 2 5 0 0) ∧
    subjectUsersHandler dbEmpty (RawId.valid 7) (some "student") 2 5 =
      ApiResponse.success 200 (Paginated.mk [] 2 5 0 0) ∧
    subjectUsersHandler dbEmpty (RawId.valid 7) (some "teacher") 2 5 =
      ApiResponse.serverError "Failed to get subject users" :=
  C5_amended dbEmpty 7 2 5 (by decide) (by decide)

/-! ## C8: validation before storage -/

/-- C8, counterexample. The claim says an invalid enum value is rejected
with a client error before any storage query — including the optional
`role` filter of GET /users. That handler (classes.ts users router,
lines 160–162) pushes any present `role` value straight into the
where-clause of the count query with no validation and answers 200: with
`role=wizard` the built filter list is `[roleEq "wizard"]` and the
response is a 200 page (whose data, due to the missing list-side
where-clause, even contains the admin user). -/
theorem C8_counterexample :
    usersFilterConditions none (some "wizard") = [UserFilter.roleEq "wizard"] ∧
    usersHandler dbAdmin none (some "wizard") RawParam.absent RawParam.absent =
      ApiResponse.success 200 (Paginated.mk [adminUser] 1 10 0 0) := by
  refine ⟨by decide, by decide⟩

/-- C8, amended: malformed path ids are rejected with 400 before any
query on GET /subjects/:id, GET /subjects/:id/classes and
GET /subjects/:id/users, and the role-required endpoint
GET /subjects/:id/users rejects an unrecognized role with 400 before any
query; but the optional role filter of GET /users is never validated —
the handler always answers 200 and embeds the raw value in the storage
predicate. -/
theorem C8_amended :
    (∀ (db : DB) (p l : Int) (role : Option String),
      subjectDetailsHandler db RawId.invalid =
        ApiResponse.clientError 400 "Invalid subject id." ∧
      subjectClassesHandler db RawId.invalid p l =
        ApiResponse.clientError 400 "Invalid subject id." ∧
      subjectUsersHandler db RawId.invalid role p l =
        ApiResponse.clientError 400 "Invalid subject id.") ∧
    (∀ (db : DB) (sid : Int) (role : Option String) (p l : Int),
      role ≠ some "teacher" → role ≠ some "student" →
      subjectUsersHandler db (RawId.valid sid) role p l =
        ApiResponse.clientError 400 "Invalid role") ∧
    (∀ (db : DB) (search role : Option String) (page limit : RawParam),
      ∃ body, usersHandler db search role page limit = ApiResponse.success 200 body) := by
  refine ⟨fun db p l role => ⟨rfl, rfl, rfl⟩, ?_, fun db s r page limit => ⟨_, rfl⟩⟩
  intro db sid role p l hrt hrs
  simp only [subjectUsersHandler]
  rw [if_pos ⟨hrt, hrs⟩]

/-- C8 witness: the amended theorem at a concrete invalid role. -/
theorem C8_amended_witness :
    subjectUsersHandler dbAdmin (RawId.valid 1) (some "wizard2") 1 10 =
      ApiResponse.clientError 400 "Invalid role" :=
  C8_amended.2.1 dbAdmin 1 (some "wizard2") 1 10 (by decide) (by decide)

/-! ## C9: totals.classes of GET /subjects/:id -/

/-- C9. The `classesCount` query of GET /subjects/:id counts rows *of the
subjects table* whose id equals the requested id (subjects.ts lines
128–131): whenever the subject exists (and subject ids are unique, their
primary-key invariant), `totals.classes` is 1 — no matter what the
classes table holds. -/
theorem C9_subject_totals_classes (db : DB) (s : Subject)
    (hnd : (db.subjects.map Subject.id).Nodup) (hmem : s ∈ db.subjects) :
    subjectTotalsClasses db s.id = 1 ∧
    ∀ cls : List ClassRec,
      subjectTotalsClasses (DB.mk db.departments db.subjects cls db.users db.enrollments)
        s.id = 1 := by
  have h1 : subjectTotalsClasses db s.id = 1 :=
    filter_key_unique Subject.id db.subjects s hnd hmem
  exact ⟨h1, fun _ => h1⟩

def subjAlgorithms : Subject := ⟨10, 1, "algorithms", "cs201", "", 100, 100⟩

def clsMonday : ClassRec := ⟨21, 10, "t1", "algorithms a", "abc1234", [], 100, 100⟩

def clsTuesday : ClassRec := ⟨22, 10, "t1", "algorithms b", "def5678", [], 101, 101⟩

/-- A subject with two classes referencing it. -/
def dbTwoClasses : DB := ⟨[], [subjAlgorithms], [clsMonday, clsTuesday], [], []⟩

/-- C9 witness: with two classes pointing at subject 10, `totals.classes`
is still computed as 1. -/
theorem C9_subject_totals_classes_witness :
    subjectTotalsClasses dbTwoClasses 10 = 1 :=
  (C9_subject_totals_classes dbTwoClasses subjAlgorithms (by decide) (by decide)).1

/-! ## POST /classes and GET /classes/:id (classes.ts)

The storage outcome of the one awaited operation is passed to the
handler explicitly: either the resulting rows/ids or the thrown error
(rendered as a string). -/

/-- Outcome of the awaited `insert ... returning({id})`. -/
inductive InsertOutcome where
  | returned (ids : List Int)
  | failure (e : String)
deriving DecidableEq, Repr

/-- Outcome of an awaited select. -/
inductive StorageOutcome where
  | ok
  | failure (e : String)
deriving DecidableEq, Repr

/-- What POST /classes serializes into the response body. -/
inductive PostClassesBody where
  | created (id : Int)
  | leakedError (e : String)
deriving DecidableEq, Repr

/-- `POST /classes` (classes.ts lines 105–123): 201 with the created id;
on failure the `catch` answers `res.status(500).json({ error: e })` —
the caught value itself is placed in the response body. An empty
`returning` hits `throw Error`, caught by the same handler (the thrown
constructor is modeled by its name). -/
def postClassesHandler (outcome : InsertOutcome) : Nat × PostClassesBody :=
  match outcome with
  | .failure e => (500, .leakedError e)
  | .returned ids =>
    match ids.head? with
    | none => (500, .leakedError "Error")
    | some i => (201, .created i)

structure ClassDetailsRow where
  cls : ClassRec
  subject : Option Subject
  department : Option Department
  teacher : Option User
deriving DecidableEq, Repr

/-- The detail select of GET /classes/:id: classes with subjects, user
and (through the possibly-null subject) departments left-joined, where
`classes.id = classId`. -/
def classDetailsQuery (db : DB) (cid : Int) : List ClassDetailsRow :=
  let j1 := leftJoin db.classes (fun c => db.subjects.filter (fun s => s.id == c.subjectId))
  let j2 := leftJoin j1 (fun r => db.users.filter (fun u => u.id == r.1.teacherId))
  let j3 := leftJoin j2 (fun r =>
    match r.1.2 with
    | some s => db.departments.filter (fun d => d.id == s.departmentId)
    | none => [])
  (j3.filter (fun r => r.1.1.1.id == cid)).map
    (fun r => ClassDetailsRow.mk r.1.1.1 r.1.1.2 r.2 r.1.2)

/-- `GET /classes/:id` (classes.ts lines 81–103): 400 on a NaN id, 404
when no row matches — but the handler body has **no try/catch**, so when
the awaited select rejects, no response is produced by the handler at
all (`none`): the rejection escapes. -/
def getClassByIdHandler (db : DB) (rawId : RawId) (outcome : StorageOutcome) :
    Option (ApiResponse ClassDetailsRow) :=
  match rawId with
  | .invalid => some (.clientError 400 "No Class found.")
  | .valid cid =>
    match outcome with
    | .failure _ => none
    | .ok =>
      match (classDetailsQuery db cid).head? with
      | none => some (.clientError 404 "No Class found.")
      | some row => some (.success 200 row)

/-- C7. The claim says every endpoint catches storage errors, logs them,
and answers a generic 500 with no internal details — naming POST
/classes and GET /classes/:id. POST /classes places the caught error
value itself in the response body (`res.status(500).json({ error: e })`,
classes.ts line 121), and GET /classes/:id has no try/catch at all, so a
rejected select produces no handler response (and nothing is logged). -/
theorem C7_error_leak :
    postClassesHandler (InsertOutcome.failure "connection refused") =
      (500, PostClassesBody.leakedError "connection refused") ∧
    getClassByIdHandler dbEmpty (RawId.valid 1) (StorageOutcome.failure "connection refused") =
      none ∧
    getClassByIdHandler dbEmpty (RawId.valid 1) StorageOutcome.ok =
      some (ApiResponse.clientError 404 "No Class found.") := by
  refine ⟨rfl, rfl, by decide⟩

/-! ## C10: POST /classes insert values -/

/-- The insertable class columns a request body may carry. -/
structure ClassInsertBody where
  subjectId : Int
  teacherId : String
  name : String
  inviteCode : Option String
  schedules : Option (List String)
deriving DecidableEq, Repr

/-- The row handed to the insert. -/
structure ClassInsertValues where
  subjectId : Int
  teacherId : String
  name : String
  inviteCode : List Char
  schedules : List String
deriving DecidableEq, Repr

/-- Digit of `Number.prototype.toString(36)`: `0`–`9` then `a`–`z`. -/
def base36Digit (d : Fin 36) : Char :=
  if d.val < 10 then Char.ofNat (48 + d.val) else Char.ofNat (87 + d.val)

/-- `Math.random().toString(36)` for a draw in `[0, 1)` whose base-36
fraction digits are `ds` (JS prints no trailing zeros, so `ds` is the
exact emitted digit list): `"0"` for zero, else `"0." ++ digits`. -/
def jsRandomToStringBase36 (ds : List (Fin 36)) : List Char :=
  match ds with
  | [] => ['0']
  | _ => '0' :: '.' :: ds.map base36Digit

/-- `s.substring(2, 9)`: characters at indices 2 through 8. -/
def jsSubstring (s : List Char) (start stop : Nat) : List Char :=
  (s.drop start).take (stop - start)

/-- `Math.random().toString(36).substring(2, 9)` (classes.ts line 111). -/
def genInviteCode (ds : List (Fin 36)) : List Char :=
  jsSubstring (jsRandomToStringBase36 ds) 2 9

/-- `{...req.body, inviteCode: <generated>, schedules: []}`: the spread
body first, then the generated invite code and the empty schedule list
override whatever the body carried for those two keys. -/
def buildClassInsertValues (body : ClassInsertBody) (ds : List (Fin 36)) :
    ClassInsertValues :=
  ClassInsertValues.mk body.subjectId body.teacherId body.name (genInviteCode ds) []

/-- C10. For every request body and every random draw, the inserted row
carries the freshly generated invite code — a base-36 token of at most 7
characters — and an empty schedule list, regardless of any `inviteCode`
or `schedules` the body supplied, while the remaining body fields are
inserted as given. -/
theorem C10_insert_values (body : ClassInsertBody) (ds : List (Fin 36)) :
    (buildClassInsertValues body ds).inviteCode = genInviteCode ds ∧
    (genInviteCode ds).length ≤ 7 ∧
    (∀ c ∈ genInviteCode ds, ∃ d : Fin 36, c = base36Digit d) ∧
    (buildClassInsertValues body ds).schedules = [] ∧
    (buildClassInsertValues body ds).subjectId = body.subjectId ∧
    (buildClassInsertValues body ds).teacherId = body.teacherId ∧
    (buildClassInsertValues body ds).name = body.name ∧
    (∀ ic sch, buildClassInsertValues
      (ClassInsertBody.mk body.subjectId body.teacherId body.name ic sch) ds =
      buildClassInsertValues body ds) := by
  refine ⟨rfl, ?_, ?_, rfl, rfl, rfl, rfl, fun ic sch => rfl⟩
  · cases ds with
    | nil => decide
    | cons d ds' =>
      simp only [genInviteCode, jsRandomToStringBase36, jsSubstring, List.drop_succ_cons,
        List.drop_zero, List.length_take]
      omega
  · intro c hc
    cases ds with
    | nil => simp [genInviteCode, jsRandomToStringBase36, jsSubstring] at hc
    | cons d ds' =>
      simp only [genInviteCode, jsRandomToStringBase36, jsSubstring, List.drop_succ_cons,
        List.drop_zero] at hc
      have hc2 := List.mem_of_mem_take hc
      obtain ⟨d2, _, hd2⟩ := List.mem_map.mp hc2
      exact ⟨d2, hd2.symm⟩

/-- C10 witness: a concrete draw `0.5a...` and a body that tries to smuggle
its own invite code. -/
theorem C10_insert_values_witness :
    (buildClassInsertValues (ClassInsertBody.mk 10 "t1" "algo" (some "HACK") (some ["x"]))
      [⟨5, by decide⟩, ⟨10, by decide⟩]).inviteCode = ['5', 'a'] ∧
    (['5', 'a'] : List Char).length ≤ 7 :=
  ⟨by decide,
   (C10_insert_values (ClassInsertBody.mk 10 "t1" "algo" (some "HACK") (some ["x"]))
      [⟨5, by decide⟩, ⟨10, by decide⟩]).2.1.trans_eq' (by decide)⟩
